import Mathlib

/-!
Verification of the flare-economy virtual-currency ledger.

The repository ships several near-duplicate implementations of the same
ledger.  We embed the arithmetic core of each variant that the claims
reference:

* the TypeScript class (src/unnamed/part_001, helpers in src/dist/utils.js):
  definitions suffixed TS, plus formatCooldown and isValidAmount;
* the CommonJS flaredb class (src/unnamed/part_003, mirrored by the ESM
  variants part_006/part_007): definitions suffixed 3;
* the CommonJS JSON-file class (src/unnamed/part_002): definitions
  suffixed 2, plus formatTime.

JavaScript numbers are embedded as Int; every amount handled by these code
paths is an integer produced by parseInt/Number on validated input, and the
claims are about integer arithmetic.  Math.min becomes min, Math.floor of a
nonnegative quotient becomes Nat division.  Thrown TypeErrors become
Except.error; business outcomes are ordinary returned values (Except.ok).
The storage collection is embedded as a list of account records with
first-match lookup; updateOne with a fully updated record and put coincide,
both replace the record with the matching (userID, platform) key.
-/

namespace FlareEconomy

/-- One persisted account record, the sole entity of the data model.
The daily field stores the last daily-claim timestamp in milliseconds
(0 = never claimed); part_001/part_003 store it as a numeric string, which
is parseInt-ed back on every read, so an integer field is faithful. -/
structure Account where
  userID : String
  platform : String
  wallet : Int
  bank : Int
  bankCapacity : Int
  daily : Int
  deriving DecidableEq

/-- The default record materialized on first access (createUser / create). -/
def freshAccount (userID platform : String) : Account :=
  { userID := userID, platform := platform, wallet := 0, bank := 0,
    bankCapacity := 2500, daily := 0 }

/-- The storage collection: a list of records, at most one per key. -/
abbrev Store := List Account

/-- The exact-match filter object of findOne / updateOne / deleteOne. -/
def keyMatch (a : Account) (userID platform : String) : Bool :=
  a.userID == userID && a.platform == platform

/-- Point lookup by composite key (collection.findOne). -/
def findOne (store : Store) (userID platform : String) : Option Account :=
  store.find? (fun a => keyMatch a userID platform)

/-- Insert-or-replace by key (collection.put; also updateOne applied to a
fully recomputed record). -/
def put (store : Store) (a : Account) : Store :=
  match store with
  | [] => [a]
  | b :: rest => if keyMatch b a.userID a.platform then a :: rest else b :: put rest a

/-- Fetch-or-create, the shared lazy-materialization step
(findOne followed by create when absent). -/
def fetchOrCreate (store : Store) (userID platform : String) : Account × Store :=
  match findOne store userID platform with
  | some a => (a, store)
  | none => (freshAccount userID platform, put store (freshAccount userID platform))

/-- isValidAmount from src/dist/utils.js: the parsed number must be a
number greater than zero. -/
def isValidAmount (n : Int) : Bool :=
  decide (0 < n)

/-- A record always matches its own key. -/
theorem keyMatch_self (a : Account) : keyMatch a a.userID a.platform = true := by
  simp [keyMatch]

instance {ε α : Type} [DecidableEq ε] [DecidableEq α] : DecidableEq (Except ε α) := fun x y =>
  match x, y with
  | .ok a, .ok b =>
      if h : a = b then .isTrue (by rw [h])
      else .isFalse (fun hh => h (Except.ok.inj hh))
  | .error e, .error f =>
      if h : e = f then .isTrue (by rw [h])
      else .isFalse (fun hh => h (Except.error.inj hh))
  | .ok _, .error _ => .isFalse (fun hh => Except.noConfusion hh)
  | .error _, .ok _ => .isFalse (fun hh => Except.noConfusion hh)

/-- After put of a record, looking its key up returns exactly that record. -/
theorem findOne_put_self (store : Store) (a : Account) :
    findOne (put store a) a.userID a.platform = some a := by
  induction store with
  | nil => simp [put, findOne, List.find?, keyMatch_self]
  | cons b rest ih =>
      by_cases h : keyMatch b a.userID a.platform = true
      · simp only [put, h, if_true]
        simp [findOne, List.find?_cons_of_pos, keyMatch_self]
      · simp only [put, h, Bool.false_eq_true, if_false]
        rw [findOne, List.find?_cons_of_neg _ (by simp [h])]
        exact ih

/-- The deduct operation of the JSON-file variant (src/unnamed/part_002):
clamp the requested amount to the wallet and subtract. -/
structure DeductResult where
  amount : Int
  newBalance : Int
  deriving DecidableEq

/-- deduct from src/unnamed/part_002: validates the amount, clamps it to
the wallet, writes wallet := wallet - actual, reports the actual amount. -/
def deduct (user : Account) (amount : Int) : Except String (DeductResult × Account) :=
  if amount < 0 then Except.error "Amount cannot be less than zero"
  else
    let deductAmount := min amount user.wallet
    let newWallet := user.wallet - deductAmount
    Except.ok ({ amount := deductAmount, newBalance := newWallet },
      { user with wallet := newWallet })

/-- C4: a valid debit removes exactly min(amount, wallet), leaves the
wallet at wallet - min(amount, wallet), never negative; when the request
exceeds the prior wallet the wallet ends at exactly 0 and the reported
amount equals the prior wallet. -/
theorem c4_deduct_clamps (user : Account) (amount : Int)
    (ha : 0 ≤ amount) :
    deduct user amount =
      Except.ok ({ amount := min amount user.wallet,
                   newBalance := user.wallet - min amount user.wallet },
        { user with wallet := user.wallet - min amount user.wallet }) ∧
    0 ≤ user.wallet - min amount user.wallet ∧
    (user.wallet < amount →
      min amount user.wallet = user.wallet ∧
      user.wallet - min amount user.wallet = 0) := by
  refine ⟨?_, ?_, ?_⟩
  · simp [deduct, not_lt.mpr ha]
  · omega
  · intro h
    omega

/-- C4 witness: debit of 80 from a wallet of 50 reports 50 and zeroes the
wallet. -/
theorem c4_witness :
    (0 : Int) ≤ 80 ∧
    deduct { freshAccount "alice" "discord" with wallet := 50 } 80 =
      Except.ok ({ amount := 50, newBalance := 0 },
        { freshAccount "alice" "discord" with wallet := 0 }) := by
  refine ⟨by decide, ?_⟩
  have h := c4_deduct_clamps { freshAccount "alice" "discord" with wallet := 50 } 80
    (by decide)
  exact h.1.trans (by decide)

/-- The balance query result of the TypeScript variant (src/unnamed/part_001). -/
structure BalanceResult where
  wallet : Int
  bank : Int
  bankCapacity : Int
  netWorth : Int
  deriving DecidableEq

/-- balance from src/unnamed/part_001: reject an empty user ID, fetch or
lazily create the record, and report its fields plus the derived net worth. -/
def balance (store : Store) (userID platform : String) :
    Except String (BalanceResult × Store) :=
  if userID = "" then Except.error "Please provide a User ID"
  else
    let fc := fetchOrCreate store userID platform
    let user := fc.1
    Except.ok ({ wallet := user.wallet, bank := user.bank,
                 bankCapacity := user.bankCapacity,
                 netWorth := user.wallet + user.bank }, fc.2)

/-- C5: balance on an absent key materializes the default account and
returns wallet 0, bank 0, bankCapacity 2500, netWorth 0; and every balance
result reports netWorth = wallet + bank. -/
theorem c5_balance_creates (store : Store) (userID platform : String)
    (hu : userID ≠ "") :
    (findOne store userID platform = none →
      balance store userID platform =
        Except.ok ({ wallet := 0, bank := 0, bankCapacity := 2500, netWorth := 0 },
          put store (freshAccount userID platform)) ∧
      findOne (put store (freshAccount userID platform)) userID platform =
        some (freshAccount userID platform)) ∧
    (∀ res store2, balance store userID platform = Except.ok (res, store2) →
      res.netWorth = res.wallet + res.bank) := by
  constructor
  · intro hnone
    refine ⟨?_, findOne_put_self store (freshAccount userID platform)⟩
    simp [balance, hu, fetchOrCreate, hnone, freshAccount]
  · intro res store2 h
    simp only [balance, hu, if_false] at h
    obtain ⟨h1, -⟩ := Prod.mk.injEq .. ▸ Except.ok.inj h
    subst h1
    rfl

/-- C5 witness: balance on an empty store for user alice. -/
theorem c5_witness :
    "alice" ≠ "" ∧
    balance [] "alice" "discord" =
      Except.ok ({ wallet := 0, bank := 0, bankCapacity := 2500, netWorth := 0 },
        [freshAccount "alice" "discord"]) := by
  refine ⟨by decide, ?_⟩
  have h := (c5_balance_creates [] "alice" "discord" (by decide)).1 rfl
  exact h.1.trans (by decide)

/-- The result shape of removeMoney in the TypeScript variant. -/
structure RemoveResult where
  amount : Int
  deriving DecidableEq

/-- removeMoney from src/unnamed/part_001: validate, and if the account is
absent, create it and return amount 0 without any further write; otherwise
clamp to the wallet, subtract and persist. -/
def removeMoney (store : Store) (userID : String) (amount : Int)
    (platform : String) : Except String (RemoveResult × Store) :=
  if userID = "" then Except.error "Please provide a User ID"
  else if ¬ isValidAmount amount then Except.error "Please provide a valid amount"
  else
    match findOne store userID platform with
    | none => Except.ok ({ amount := 0 }, put store (freshAccount userID platform))
    | some user =>
        let actualAmount := min amount user.wallet
        let user2 := { user with wallet := user.wallet - actualAmount }
        Except.ok ({ amount := actualAmount }, put store user2)

/-- C10: in the TypeScript variant, removeMoney on an absent account
materializes the default record, reports amount 0 (not the requested
amount), leaves the stored wallet at 0, and does not throw. -/
theorem c10_removeMoney_absent (store : Store) (userID platform : String)
    (amount : Int) (hu : userID ≠ "") (ha : isValidAmount amount = true)
    (hnone : findOne store userID platform = none) :
    removeMoney store userID amount platform =
      Except.ok ({ amount := 0 }, put store (freshAccount userID platform)) ∧
    findOne (put store (freshAccount userID platform)) userID platform =
      some (freshAccount userID platform) ∧
    (freshAccount userID platform).wallet = 0 := by
  refine ⟨?_, findOne_put_self store (freshAccount userID platform), rfl⟩
  simp [removeMoney, hu, ha, hnone]

/-- C10 witness: removeMoney of 500 for an unknown user on an empty store. -/
theorem c10_witness :
    "bob" ≠ "" ∧ isValidAmount 500 = true ∧
    removeMoney [] "bob" 500 "whatsapp" =
      Except.ok ({ amount := 0 }, [freshAccount "bob" "whatsapp"]) := by
  refine ⟨by decide, by decide, ?_⟩
  have h := c10_removeMoney_absent [] "bob" "whatsapp" 500 (by decide) (by decide) rfl
  exact h.1.trans (by decide)

/-- The transfer outcomes of the CommonJS flaredb variant
(src/unnamed/part_003): a business failure with reason insufficient_funds,
or a success carrying the amount and both new balances. -/
inductive TransferOutcome where
  | insufficientFunds
  | transferred (amount fromBalance toBalance : Int)
  deriving DecidableEq

/-- transfer from src/unnamed/part_003: validate the IDs, platform, amount
and self-transfer, fetch or create both records, return the
insufficient_funds value without writing when the sender wallet is below
the amount, otherwise move exactly the amount between the two wallets and
persist both records. -/
def transfer (store : Store) (fromUserID toUserID platform : String)
    (amount : Int) : Except String (TransferOutcome × Store) :=
  if fromUserID = "" ∨ toUserID = "" then
    Except.error "Please Provide both sender and receiver User IDs"
  else if platform = "" then Except.error "Please Provide a Platform"
  else if amount < 0 then Except.error "Amount cannot be less than zero"
  else if fromUserID = toUserID then Except.error "Cannot transfer to yourself"
  else
    let fc1 := fetchOrCreate store fromUserID platform
    let fromUser := fc1.1
    let fc2 := fetchOrCreate fc1.2 toUserID platform
    let toUser := fc2.1
    let store2 := fc2.2
    if fromUser.wallet < amount then Except.ok (.insufficientFunds, store2)
    else
      let fromUser2 := { fromUser with wallet := fromUser.wallet - amount }
      let toUser2 := { toUser with wallet := toUser.wallet + amount }
      Except.ok (.transferred amount fromUser2.wallet toUser2.wallet,
        put (put store2 fromUser2) toUser2)

/-- C2: a transfer between two existing distinct accounts whose sender
wallet is strictly below the amount returns the insufficient_funds value
(not an exception) and leaves the store exactly as it was, so neither
record is modified. -/
theorem c2_transfer_insufficient (store : Store)
    (fromUserID toUserID platform : String) (amount : Int) (A B : Account)
    (h1 : fromUserID ≠ "") (h2 : toUserID ≠ "") (hp : platform ≠ "")
    (hne : fromUserID ≠ toUserID) (ha : 0 ≤ amount)
    (hA : findOne store fromUserID platform = some A)
    (hB : findOne store toUserID platform = some B)
    (hw : A.wallet < amount) :
    transfer store fromUserID toUserID platform amount =
      Except.ok (TransferOutcome.insufficientFunds, store) := by
  simp [transfer, h1, h2, hp, hne, not_lt.mpr ha, fetchOrCreate, hA, hB, hw]

/-- C2 witness: transferring 100 from a wallet of 50 between two existing
accounts fails as a value and changes nothing. -/
theorem c2_witness :
    ({ freshAccount "a" "discord" with wallet := 50 } : Account).wallet < 100 ∧
    transfer [{ freshAccount "a" "discord" with wallet := 50 },
        freshAccount "b" "discord"] "a" "b" "discord" 100 =
      Except.ok (TransferOutcome.insufficientFunds,
        [{ freshAccount "a" "discord" with wallet := 50 },
         freshAccount "b" "discord"]) := by
  refine ⟨by decide, ?_⟩
  exact c2_transfer_insufficient _ "a" "b" "discord" 100
    { freshAccount "a" "discord" with wallet := 50 } (freshAccount "b" "discord")
    (by decide) (by decide) (by decide) (by decide) (by decide) (by decide)
    (by decide) (by decide)

/-- A deposit/withdraw amount argument: the literal string all, or a
number (the tagged union the spec recommends for amount-or-all). -/
inductive AmountArg where
  | all
  | exact (n : Int)
  deriving DecidableEq

/-- The numeric-argument validation shared by deposit and withdraw in the
flaredb variants: the literal all is always accepted, a number must be
nonnegative. -/
def validAmountArg : AmountArg → Bool
  | .all => true
  | .exact n => decide (0 ≤ n)

/-- The deposit outcomes of src/unnamed/part_003: the bank_full business
failure, or a success carrying the moved amount and both new fields. -/
inductive DepositOutcome where
  | bankFull
  | deposited (amount wallet bank : Int)
  deriving DecidableEq

/-- The arithmetic tail of deposit in src/unnamed/part_003, after the
wanted amount has been computed: clamp it to the available bank space,
report bank_full when nothing positive can move, otherwise move it. -/
def depositCore3 (user : Account) (depositAmount : Int) :
    Except String (DepositOutcome × Account) :=
  let availableSpace := user.bankCapacity - user.bank
  let actualDeposit := min depositAmount availableSpace
  if actualDeposit ≤ 0 then Except.ok (.bankFull, user)
  else
    Except.ok (.deposited actualDeposit (user.wallet - actualDeposit)
        (user.bank + actualDeposit),
      { user with wallet := user.wallet - actualDeposit,
                  bank := user.bank + actualDeposit })

/-- deposit from src/unnamed/part_003 (same arithmetic in part_006 and
part_007): all means the whole wallet, a number is clamped to the wallet
after rejecting negatives. -/
def deposit3 (user : Account) (amount : AmountArg) :
    Except String (DepositOutcome × Account) :=
  match amount with
  | .all => depositCore3 user user.wallet
  | .exact n =>
      if n < 0 then Except.error "Deposit cannot be less than zero"
      else depositCore3 user (min n user.wallet)

/-- The withdraw outcomes of src/unnamed/part_003. -/
inductive WithdrawOutcome where
  | insufficientBank
  | withdrawn (amount wallet bank : Int)
  deriving DecidableEq

/-- The arithmetic tail of withdraw in src/unnamed/part_003. -/
def withdrawCore3 (user : Account) (withdrawAmount : Int) :
    Except String (WithdrawOutcome × Account) :=
  if withdrawAmount ≤ 0 then Except.ok (.insufficientBank, user)
  else
    Except.ok (.withdrawn withdrawAmount (user.wallet + withdrawAmount)
        (user.bank - withdrawAmount),
      { user with wallet := user.wallet + withdrawAmount,
                  bank := user.bank - withdrawAmount })

/-- withdraw from src/unnamed/part_003: all means the whole bank, a number
is clamped to the bank after rejecting negatives. -/
def withdraw3 (user : Account) (amount : AmountArg) :
    Except String (WithdrawOutcome × Account) :=
  match amount with
  | .all => withdrawCore3 user user.bank
  | .exact n =>
      if n < 0 then Except.error "Withdraw cannot be less than zero"
      else withdrawCore3 user (min n user.bank)

/-- The wanted deposit amount named by the claim: the wallet for all, and
min(amount, wallet) for a number. -/
def depositWant (user : Account) : AmountArg → Int
  | .all => user.wallet
  | .exact n => min n user.wallet

/-- C3: a valid deposit never throws; the amount actually moved is
min(want, bankCapacity - bank) with want as in depositWant, and a
non-positive actual amount is reported as the bank_full value while a
positive one moves exactly that amount. -/
theorem c3_deposit_amount (user : Account) (amount : AmountArg)
    (hv : validAmountArg amount = true) :
    deposit3 user amount =
      (if min (depositWant user amount) (user.bankCapacity - user.bank) ≤ 0 then
        Except.ok (DepositOutcome.bankFull, user)
      else
        Except.ok (DepositOutcome.deposited
            (min (depositWant user amount) (user.bankCapacity - user.bank))
            (user.wallet - min (depositWant user amount) (user.bankCapacity - user.bank))
            (user.bank + min (depositWant user amount) (user.bankCapacity - user.bank)),
          { user with
              wallet := user.wallet -
                min (depositWant user amount) (user.bankCapacity - user.bank),
              bank := user.bank +
                min (depositWant user amount) (user.bankCapacity - user.bank) })) := by
  cases amount with
  | all => simp [deposit3, depositCore3, depositWant]
  | exact n =>
      have hn : ¬ n < 0 := by
        simpa [validAmountArg, not_lt] using hv
      simp [deposit3, hn, depositCore3, depositWant]

/-- C3 witness: deposit of all with wallet 500, bank 2400, capacity 2500
moves the capacity-bound 100, leaving wallet 400 and bank 2500. -/
theorem c3_witness :
    validAmountArg AmountArg.all = true ∧
    deposit3 { freshAccount "a" "discord" with wallet := 500, bank := 2400 }
        AmountArg.all =
      Except.ok (DepositOutcome.deposited 100 400 2500,
        { freshAccount "a" "discord" with wallet := 400, bank := 2500 }) := by
  refine ⟨rfl, ?_⟩
  have h := c3_deposit_amount
    { freshAccount "a" "discord" with wallet := 500, bank := 2400 } AmountArg.all rfl
  exact h.trans (by decide)

/-- The BankResult shape of the TypeScript variant (src/unnamed/part_000):
success flag, moved amount, new bank balance and the operation tag. -/
structure BankResult where
  success : Bool
  amount : Int
  newBalance : Int
  type : String
  deriving DecidableEq

/-- The arithmetic tail of deposit in src/unnamed/part_001: clamp the
request to the wallet, then to the available space, and always persist the
updated record; success is whether a positive amount moved. -/
def depositCoreTS (user : Account) (dep0 : Int) : BankResult × Account :=
  let depositAmount := if dep0 > user.wallet then user.wallet else dep0
  let availableSpace := user.bankCapacity - user.bank
  let actualDeposit := min depositAmount availableSpace
  let user2 := { user with wallet := user.wallet - actualDeposit,
                           bank := user.bank + actualDeposit }
  ({ success := decide (0 < actualDeposit), amount := actualDeposit,
     newBalance := user2.bank, type := "deposit" }, user2)

/-- deposit from src/unnamed/part_001: all means the wallet, a number must
pass isValidAmount. -/
def depositTS (user : Account) (amount : AmountArg) :
    Except String (BankResult × Account) :=
  match amount with
  | .all => Except.ok (depositCoreTS user user.wallet)
  | .exact n =>
      if ¬ isValidAmount n then Except.error "Please provide a valid amount"
      else Except.ok (depositCoreTS user n)

/-- The arithmetic tail of withdraw in src/unnamed/part_001. -/
def withdrawCoreTS (user : Account) (w0 : Int) : BankResult × Account :=
  let withdrawAmount := if w0 > user.bank then user.bank else w0
  let user2 := { user with wallet := user.wallet + withdrawAmount,
                           bank := user.bank - withdrawAmount }
  ({ success := decide (0 < withdrawAmount), amount := withdrawAmount,
     newBalance := user2.bank, type := "withdraw" }, user2)

/-- withdraw from src/unnamed/part_001: all means the bank, a number must
pass isValidAmount. -/
def withdrawTS (user : Account) (amount : AmountArg) :
    Except String (BankResult × Account) :=
  match amount with
  | .all => Except.ok (withdrawCoreTS user user.bank)
  | .exact n =>
      if ¬ isValidAmount n then Except.error "Please provide a valid amount"
      else Except.ok (withdrawCoreTS user n)

/-- C9: every deposit or withdraw call that returns a value, in both the
TypeScript variant and the flaredb variant, leaves bankCapacity exactly as
it was and preserves the sum wallet + bank of the persisted record. -/
theorem c9_bank_frame (user acc2 : Account) (amount : AmountArg)
    (r : BankResult) (rd : DepositOutcome) (rw : WithdrawOutcome) :
    (depositTS user amount = Except.ok (r, acc2) →
      acc2.bankCapacity = user.bankCapacity ∧
      acc2.wallet + acc2.bank = user.wallet + user.bank) ∧
    (withdrawTS user amount = Except.ok (r, acc2) →
      acc2.bankCapacity = user.bankCapacity ∧
      acc2.wallet + acc2.bank = user.wallet + user.bank) ∧
    (deposit3 user amount = Except.ok (rd, acc2) →
      acc2.bankCapacity = user.bankCapacity ∧
      acc2.wallet + acc2.bank = user.wallet + user.bank) ∧
    (withdraw3 user amount = Except.ok (rw, acc2) →
      acc2.bankCapacity = user.bankCapacity ∧
      acc2.wallet + acc2.bank = user.wallet + user.bank) := by
  have frameTSdep : ∀ d : Int,
      (depositCoreTS user d).2.bankCapacity = user.bankCapacity ∧
      (depositCoreTS user d).2.wallet + (depositCoreTS user d).2.bank =
        user.wallet + user.bank := by
    intro d
    exact ⟨rfl, by simp [depositCoreTS]⟩
  have frameTSw : ∀ d : Int,
      (withdrawCoreTS user d).2.bankCapacity = user.bankCapacity ∧
      (withdrawCoreTS user d).2.wallet + (withdrawCoreTS user d).2.bank =
        user.wallet + user.bank := by
    intro d
    exact ⟨rfl, by simp [withdrawCoreTS]⟩
  have frame3dep : ∀ (d : Int) (rd2 : DepositOutcome) (a2 : Account),
      depositCore3 user d = Except.ok (rd2, a2) →
      a2.bankCapacity = user.bankCapacity ∧
      a2.wallet + a2.bank = user.wallet + user.bank := by
    intro d rd2 a2 h
    simp only [depositCore3] at h
    split at h <;>
    · obtain ⟨-, h2⟩ := Prod.mk.injEq .. ▸ Except.ok.inj h
      subst h2
      exact ⟨rfl, by ring⟩
  have frame3w : ∀ (d : Int) (rw2 : WithdrawOutcome) (a2 : Account),
      withdrawCore3 user d = Except.ok (rw2, a2) →
      a2.bankCapacity = user.bankCapacity ∧
      a2.wallet + a2.bank = user.wallet + user.bank := by
    intro d rw2 a2 h
    simp only [withdrawCore3] at h
    split at h <;>
    · obtain ⟨-, h2⟩ := Prod.mk.injEq .. ▸ Except.ok.inj h
      subst h2
      exact ⟨rfl, by ring⟩
  refine ⟨?_, ?_, ?_, ?_⟩ <;> intro h <;> cases amount
  · have h2 : (depositCoreTS user user.wallet).2 = acc2 :=
      congrArg Prod.snd (Except.ok.inj h)
    rw [← h2]
    exact frameTSdep user.wallet
  case refine_1.exact n =>
    rw [depositTS] at h
    split at h
    · exact Except.noConfusion h
    · have h2 : (depositCoreTS user n).2 = acc2 :=
        congrArg Prod.snd (Except.ok.inj h)
      rw [← h2]
      exact frameTSdep n
  · have h2 : (withdrawCoreTS user user.bank).2 = acc2 :=
      congrArg Prod.snd (Except.ok.inj h)
    rw [← h2]
    exact frameTSw user.bank
  case refine_2.exact n =>
    rw [withdrawTS] at h
    split at h
    · exact Except.noConfusion h
    · have h2 : (withdrawCoreTS user n).2 = acc2 :=
        congrArg Prod.snd (Except.ok.inj h)
      rw [← h2]
      exact frameTSw n
  · exact frame3dep user.wallet rd acc2 h
  · rw [deposit3] at h
    split at h
    · exact Except.noConfusion h
    · exact frame3dep _ rd acc2 h
  · exact frame3w user.bank rw acc2 h
  · rw [withdraw3] at h
    split at h
    · exact Except.noConfusion h
    · exact frame3w _ rw acc2 h

/-- C9 witness: a concrete deposit of 30 on wallet 100, bank 10,
capacity 2500 keeps the capacity and the total 110. -/
theorem c9_witness :
    depositTS { freshAccount "a" "discord" with wallet := 100, bank := 10 }
        (AmountArg.exact 30) =
      Except.ok
        ({ success := true, amount := 30, newBalance := 40, type := "deposit" },
         { freshAccount "a" "discord" with wallet := 70, bank := 40 }) ∧
    ({ freshAccount "a" "discord" with wallet := 70, bank := 40 } :
        Account).bankCapacity =
      ({ freshAccount "a" "discord" with wallet := 100, bank := 10 } :
        Account).bankCapacity ∧
    ({ freshAccount "a" "discord" with wallet := 70, bank := 40 } :
          Account).wallet +
        ({ freshAccount "a" "discord" with wallet := 70, bank := 40 } :
          Account).bank =
      ({ freshAccount "a" "discord" with wallet := 100, bank := 10 } :
          Account).wallet +
        ({ freshAccount "a" "discord" with wallet := 100, bank := 10 } :
          Account).bank := by
  refine ⟨by decide, ?_⟩
  exact (c9_bank_frame
    { freshAccount "a" "discord" with wallet := 100, bank := 10 }
    { freshAccount "a" "discord" with wallet := 70, bank := 40 }
    (AmountArg.exact 30)
    { success := true, amount := 30, newBalance := 40, type := "deposit" }
    DepositOutcome.bankFull WithdrawOutcome.insufficientBank).1 (by decide)

/-- The cooldown info object of formatCooldown in src/dist/utils.js. -/
structure CooldownInfo where
  hours : Nat
  minutes : Nat
  seconds : Nat
  formatted : String
  deriving DecidableEq

/-- formatCooldown from src/dist/utils.js.  The source computes
Math.floor((ms / 1000) % 60) and friends on a nonnegative integer ms, which
equals floor(ms / 1000) % 60, so Nat division and mod are exact; the
string is parts.join(", ") with the "0 seconds" fallback for the empty
join (the empty string is falsy in JavaScript). -/
def formatCooldown (milliseconds : Nat) : CooldownInfo :=
  let seconds := milliseconds / 1000 % 60
  let minutes := milliseconds / 60000 % 60
  let hours := milliseconds / 3600000 % 24
  let parts :=
    (if hours > 0 then [toString hours ++ " hour(s)"] else []) ++
    (if minutes > 0 then [toString minutes ++ " minute(s)"] else []) ++
    (if seconds > 0 then [toString seconds ++ " second(s)"] else [])
  { hours := hours, minutes := minutes, seconds := seconds,
    formatted := if parts = [] then "0 seconds" else String.intercalate ", " parts }

/-- formatTime from src/unnamed/part_002: total floor-division components
(hours not truncated mod 24), with the seconds part pushed when it is
positive or when nothing else was pushed. -/
def formatTime (ms : Nat) : String :=
  let seconds := ms / 1000
  let hours := seconds / 3600
  let minutes := seconds % 3600 / 60
  let secs := seconds % 60
  let parts :=
    (if hours > 0 then [toString hours ++ " hour(s)"] else []) ++
    (if minutes > 0 then [toString minutes ++ " minute(s)"] else [])
  let parts2 :=
    if secs > 0 ∨ parts = [] then parts ++ [toString secs ++ " second(s)"] else parts
  String.intercalate ", " parts2

/-- The readable cooldown string exactly as the specification words it,
for the refinement comparison: one part per nonzero component, joined with
commas, and a fallback string when every component is zero. -/
def specReadable (hours minutes seconds : Nat) (fallback : String) : String :=
  let parts :=
    (if hours = 0 then [] else [toString hours ++ " hour(s)"]) ++
    (if minutes = 0 then [] else [toString minutes ++ " minute(s)"]) ++
    (if seconds = 0 then [] else [toString seconds ++ " second(s)"])
  if parts = [] then fallback else String.intercalate ", " parts

/-- A singleton list built from a positive test equals the zero-test form
used by the specification wording. -/
theorem if_pos_list (n : Nat) (x : List String) :
    (if n > 0 then x else []) = (if n = 0 then [] else x) := by
  rcases Nat.eq_zero_or_pos n with h | h
  · simp [h]
  · simp [h, Nat.pos_iff_ne_zero.mp h]

/-- The formatted field of formatCooldown is the spec readable string of
its components with the "0 seconds" fallback. -/
theorem formatCooldown_readable (r : Nat) :
    (formatCooldown r).formatted =
      specReadable (r / 3600000 % 24) (r / 60000 % 60) (r / 1000 % 60)
        "0 seconds" := by
  simp only [formatCooldown, specReadable, if_pos_list]

/-- formatTime is the spec readable string of its floor-division
components with the "0 second(s)" fallback. -/
theorem formatTime_readable (r : Nat) :
    formatTime r =
      specReadable (r / 1000 / 3600) (r / 1000 % 3600 / 60) (r / 1000 % 60)
        "0 second(s)" := by
  simp only [formatTime, specReadable]
  by_cases h1 : r / 1000 / 3600 = 0 <;>
    by_cases h2 : r / 1000 % 3600 / 60 = 0 <;>
      by_cases h3 : r / 1000 % 60 = 0 <;>
        simp [h1, h2, h3, Nat.pos_iff_ne_zero, String.intercalate] <;>
          rfl

/-- The daily outcomes of src/unnamed/part_003: a cooldown value carrying
the remaining hour/minute/second components and the joined time string, or
a success carrying the amount and new wallet. -/
inductive Daily3Outcome where
  | cooldown (hours minutes seconds : Nat) (timeLeft : String)
  | claimed (amount newBalance : Int)
  deriving DecidableEq

/-- daily from src/unnamed/part_003 (mirrored in part_006/part_007): the
cooldown branch is taken only when time remains AND the stored last-claim
is not the 0 sentinel; otherwise the wallet is credited and the last-claim
timestamp set to now.  now is Date.now() at the call. -/
def daily3 (user : Account) (amount : Int) (now : Int) :
    Daily3Outcome × Account :=
  let lastDaily := user.daily
  let cooldown := 86400000 - (now - lastDaily)
  if cooldown > 0 ∧ lastDaily ≠ 0 then
    let seconds := cooldown.toNat / 1000
    let minutes := seconds / 60
    let hours := minutes / 60
    let timeLeft :=
      (if hours > 0 then toString hours ++ " Hour(s), " else "") ++
      (if minutes % 60 > 0 then toString (minutes % 60) ++ " Minute(s), " else "") ++
      (toString (seconds % 60) ++ " Second(s)")
    (.cooldown hours (minutes % 60) (seconds % 60) timeLeft, user)
  else
    (.claimed amount (user.wallet + amount),
      { user with wallet := user.wallet + amount, daily := now })

/-- The daily outcomes of the TypeScript variant (src/unnamed/part_001). -/
inductive DailyTSOutcome where
  | cooldown (info : CooldownInfo)
  | claimed (amount : Int)
  deriving DecidableEq

/-- daily from src/unnamed/part_001: the cooldown branch tests only
cooldown > 0 and has NO sentinel check on the stored last-claim value. -/
def dailyTS (user : Account) (amount : Int) (now : Int) :
    DailyTSOutcome × Account :=
  let cooldown := 86400000 - (now - user.daily)
  if cooldown > 0 then (.cooldown (formatCooldown cooldown.toNat), user)
  else
    (.claimed amount,
      { user with wallet := user.wallet + amount, daily := now })

/-- C6 counterexample: the claim is false for the TypeScript variant.  At
now = 1000 ms after the epoch, a valid amount of 5, and a fresh account
whose lastDailyClaim is the sentinel 0, daily returns a cooldown result
(with 86399000 ms remaining) and credits nothing, because part_001 tests
only cooldown > 0 and has no sentinel bypass. -/
theorem c6_counterexample :
    (freshAccount "a" "discord").daily = 0 ∧
    isValidAmount 5 = true ∧
    dailyTS (freshAccount "a" "discord") 5 1000 =
      (DailyTSOutcome.cooldown (formatCooldown 86399000),
        freshAccount "a" "discord") := by
  refine ⟨rfl, rfl, ?_⟩
  decide

/-- C6 amended: in the variants with the explicit sentinel check
(part_003, part_006, part_007), an account with lastDailyClaim = 0 claims
successfully regardless of the current time, crediting the wallet and
setting lastDailyClaim to now; in the TypeScript variant (part_001), whose
check is plain cooldown > 0, the same holds whenever now is at least
86400000 ms (every realistic clock value). -/
theorem c6_sentinel_claim (user : Account) (amount : Int) (now : Int)
    (h0 : user.daily = 0) (ha : 0 < amount) :
    daily3 user amount now =
      (Daily3Outcome.claimed amount (user.wallet + amount),
        { user with wallet := user.wallet + amount, daily := now }) ∧
    ((86400000 : Int) ≤ now →
      dailyTS user amount now =
        (DailyTSOutcome.claimed amount,
          { user with wallet := user.wallet + amount, daily := now })) := by
  constructor
  · simp [daily3, h0]
  · intro hnow
    rw [dailyTS]
    rw [if_neg (by rw [h0]; omega)]

/-- C6 witness: a fresh-sentinel claim of 5 at a realistic time. -/
theorem c6_witness :
    (freshAccount "b" "whatsapp").daily = 0 ∧ (0 : Int) < 5 ∧
    daily3 (freshAccount "b" "whatsapp") 5 1700000000000 =
      (Daily3Outcome.claimed 5 5,
        { freshAccount "b" "whatsapp" with wallet := 5,
                                           daily := 1700000000000 }) := by
  refine ⟨rfl, by decide, ?_⟩
  have h := c6_sentinel_claim (freshAccount "b" "whatsapp") 5 1700000000000
    rfl (by decide)
  exact h.1.trans (by decide)

/-- The daily outcomes of the JSON-file variant (src/unnamed/part_002):
the cooldown value carries the raw remaining milliseconds and the readable
formatTime string. -/
inductive Daily2Outcome where
  | cooldown (remainingTime : Int) (readableTime : String)
  | claimed (amount newBalance : Int)
  deriving DecidableEq

/-- daily from src/unnamed/part_002 with the default 24h cooldown: when
the elapsed time since the stored last claim is below the cooldown, return
the remaining time and its formatTime rendering without writing. -/
def daily2 (user : Account) (amount : Int) (now : Int) :
    Daily2Outcome × Account :=
  let timeSinceLastDaily := now - user.daily
  if timeSinceLastDaily < 86400000 then
    let remainingTime := 86400000 - timeSinceLastDaily
    (.cooldown remainingTime (formatTime remainingTime.toNat), user)
  else
    (.claimed amount (user.wallet + amount),
      { user with wallet := user.wallet + amount, daily := now })

/-- C7: a daily claim during cooldown returns remaining =
cooldown - (now - lastDailyClaim) and the account untouched; the readable
string components come from floor division and zero components are omitted
with an all-zero fallback (proved against the spec-worded specReadable for
both formatTime of part_002 and formatCooldown of dist/utils.js, whose
numeric components are exactly the floor-division values); and 86399000 ms
renders as 23 hours, 59 minutes, 59 seconds in both helpers. -/
theorem c7_cooldown_format (user : Account) (amount now : Int)
    (h1 : user.daily ≠ 0) (h2 : user.daily ≤ now)
    (h3 : now - user.daily < 86400000) :
    daily2 user amount now =
      (Daily2Outcome.cooldown (86400000 - (now - user.daily))
        (formatTime (86400000 - (now - user.daily)).toNat), user) ∧
    (∀ r : Nat, formatCooldown r =
      { hours := r / 3600000 % 24, minutes := r / 60000 % 60,
        seconds := r / 1000 % 60,
        formatted := specReadable (r / 3600000 % 24) (r / 60000 % 60)
          (r / 1000 % 60) "0 seconds" }) ∧
    (∀ r : Nat, formatTime r =
      specReadable (r / 1000 / 3600) (r / 1000 % 3600 / 60) (r / 1000 % 60)
        "0 second(s)") ∧
    formatCooldown 86399000 =
      { hours := 23, minutes := 59, seconds := 59,
        formatted := "23 hour(s), 59 minute(s), 59 second(s)" } ∧
    formatTime 86399000 = "23 hour(s), 59 minute(s), 59 second(s)" := by
  refine ⟨?_, ?_, formatTime_readable, by decide, by decide⟩
  · rw [daily2]
    rw [if_pos h3]
  · intro r
    have hf := formatCooldown_readable r
    rw [CooldownInfo.mk.injEq]
    exact ⟨rfl, rfl, rfl, hf⟩

/-- C7 witness: a claim re-invoked 1000 ms after a claim stored at
time 1 returns 86399000 ms remaining, rendered with the 23/59/59
components. -/
theorem c7_witness :
    ({ freshAccount "c" "discord" with daily := 1 } : Account).daily ≠ 0 ∧
    daily2 { freshAccount "c" "discord" with daily := 1 } 100 1001 =
      (Daily2Outcome.cooldown 86399000 "23 hour(s), 59 minute(s), 59 second(s)",
        { freshAccount "c" "discord" with daily := 1 }) := by
  refine ⟨by decide, ?_⟩
  have h := c7_cooldown_format { freshAccount "c" "discord" with daily := 1 }
    100 1001 (by decide) (by decide) (by decide)
  exact h.1.trans (by decide)

/-- One ledger operation applied to a single account, covering every
balance-affecting call of the repository.  A transfer touches two
accounts; its effect on each one is transferOut (full-amount debit guarded
by wallet >= amount) and transferIn (full-amount credit).  delete removes
the record; since every later operation lazily re-materializes the default
record, the per-account state after delete is the fresh default. -/
inductive Op where
  | create
  | balanceQuery
  | addMoney (amount : Int)
  | removeMoney (amount : Int)
  | deposit (amount : AmountArg)
  | withdraw (amount : AmountArg)
  | transferOut (amount : Int)
  | transferIn (amount : Int)
  | dailyClaim (amount : Int) (now : Int)
  | addBankCapacity (amount : Int)
  | setMoney (wallet bank : Int)
  | setBankCapacity (capacity : Int)
  | deleteAccount
  deriving DecidableEq

/-- The deposit arithmetic of src/unnamed/part_003 with the wanted amount
already computed: clamp to available space, no change when nothing
positive can move. -/
def depositClamp (s : Account) (depositAmount : Int) : Account :=
  let actualDeposit := min depositAmount (s.bankCapacity - s.bank)
  if actualDeposit ≤ 0 then s
  else { s with wallet := s.wallet - actualDeposit,
                bank := s.bank + actualDeposit }

/-- The withdraw arithmetic of src/unnamed/part_003 with the wanted amount
already computed. -/
def withdrawClamp (s : Account) (withdrawAmount : Int) : Account :=
  if withdrawAmount ≤ 0 then s
  else { s with wallet := s.wallet + withdrawAmount,
                bank := s.bank - withdrawAmount }

/-- The stored-state effect of each operation, translated from
src/unnamed/part_003 (setBankCapacity from src/unnamed/part_002).  The
validation layer that precedes each arithmetic step in the source throws
before any write, so invalid calls leave the state unchanged; the
remaining arithmetic is embedded as written.  validOp below records which
argument values pass that validation layer. -/
def applyOp (s : Account) : Op → Account
  | .create => s
  | .balanceQuery => s
  | .addMoney a => { s with wallet := s.wallet + a }
  | .removeMoney a => { s with wallet := s.wallet - min a s.wallet }
  | .deposit .all => depositClamp s s.wallet
  | .deposit (.exact n) => depositClamp s (min n s.wallet)
  | .withdraw .all => withdrawClamp s s.bank
  | .withdraw (.exact n) => withdrawClamp s (min n s.bank)
  | .transferOut a => if s.wallet < a then s else { s with wallet := s.wallet - a }
  | .transferIn a => { s with wallet := s.wallet + a }
  | .dailyClaim a now =>
      if 86400000 - (now - s.daily) > 0 ∧ s.daily ≠ 0 then s
      else { s with wallet := s.wallet + a, daily := now }
  | .addBankCapacity a => { s with bankCapacity := s.bankCapacity + a }
  | .setMoney w b => { s with wallet := w, bank := b }
  | .setBankCapacity c => { s with bankCapacity := c }
  | .deleteAccount => freshAccount s.userID s.platform

/-- A sequence of operations applied in order. -/
def applyOps (s : Account) (ops : List Op) : Account :=
  ops.foldl applyOp s

/-- The invariant named by the claim. -/
def ClaimedInv (s : Account) : Prop :=
  0 ≤ s.wallet ∧ 0 ≤ s.bank ∧ s.bank ≤ s.bankCapacity

instance (s : Account) : Decidable (ClaimedInv s) := by
  unfold ClaimedInv
  infer_instance

/-- Which argument values pass the validation layer of the corresponding
source operation (the checks that throw before any write).  addMoney,
removeMoney, deposit, withdraw, transfer, addBankCapacity, setMoney and
setBankCapacity all reject a negative amount; daily in the embedded
flaredb variants (part_003 lines 246-249, part_006, part_007) checks only
that the amount is present and numeric, with NO negativity check, so
every integer daily amount, including a negative one, is validated. -/
def validOp : Op → Bool
  | .addMoney a => decide (0 ≤ a)
  | .removeMoney a => decide (0 ≤ a)
  | .deposit amt => validAmountArg amt
  | .withdraw amt => validAmountArg amt
  | .transferOut a => decide (0 ≤ a)
  | .transferIn a => decide (0 ≤ a)
  | .dailyClaim _ _ => true
  | .addBankCapacity a => decide (0 ≤ a)
  | .setMoney w b => decide (0 ≤ w) && decide (0 ≤ b)
  | .setBankCapacity c => decide (0 ≤ c)
  | _ => true

/-- The operations that only move value under the clamping arithmetic:
everything except the direct overwrites setMoney and setBankCapacity. -/
def safeOp : Op → Bool
  | .setMoney _ _ => false
  | .setBankCapacity _ => false
  | _ => true

/-- The extra restriction the amended claim needs BEYOND the source
validation: a nonnegative daily-claim amount.  The source does not enforce
this for the flaredb variants (only part_002 daily rejects a negative
amount), which is exactly why a validated negative daily claim is a second
counterexample to the claim as stated. -/
def nonNegDaily : Op → Bool
  | .dailyClaim a _ => decide (0 ≤ a)
  | _ => true

/-- C1 counterexample: the claim as stated is false, in two independent
ways.  First, setMoney with wallet 0 and bank 3000 passes the source
validation (both values nonnegative), yet one such call on a freshly
created account leaves bank = 3000 above bankCapacity = 2500.  Second,
a daily claim of -1 passes the daily validation of part_003/006/007
(which checks only isNaN, not sign), is eligible on the fresh sentinel
account, and executes wallet += -1, leaving wallet = -1 below zero. -/
theorem c1_counterexample :
    validOp (Op.setMoney 0 3000) = true ∧
    ¬ ClaimedInv (applyOps (freshAccount "a" "discord") [Op.setMoney 0 3000]) ∧
    validOp (Op.dailyClaim (-1) 1700000000000) = true ∧
    ¬ ClaimedInv (applyOps (freshAccount "a" "discord")
      [Op.dailyClaim (-1) 1700000000000]) := by
  refine ⟨rfl, by decide, rfl, by decide⟩

/-- depositClamp preserves the invariant whenever the wanted amount is at
most the wallet. -/
theorem depositClamp_inv (s : Account) (d : Int) (hd : d ≤ s.wallet)
    (h : ClaimedInv s) : ClaimedInv (depositClamp s d) := by
  obtain ⟨h1, h2, h3⟩ := h
  simp only [depositClamp]
  split
  · exact ⟨h1, h2, h3⟩
  · next hpos =>
      refine ⟨?_, ?_, ?_⟩
      · show (0 : Int) ≤ s.wallet - min d (s.bankCapacity - s.bank)
        omega
      · show (0 : Int) ≤ s.bank + min d (s.bankCapacity - s.bank)
        omega
      · show s.bank + min d (s.bankCapacity - s.bank) ≤ s.bankCapacity
        omega

/-- withdrawClamp preserves the invariant whenever the wanted amount is at
most the bank. -/
theorem withdrawClamp_inv (s : Account) (w : Int) (hw : w ≤ s.bank)
    (h : ClaimedInv s) : ClaimedInv (withdrawClamp s w) := by
  obtain ⟨h1, h2, h3⟩ := h
  simp only [withdrawClamp]
  split
  · exact ⟨h1, h2, h3⟩
  · next hpos =>
      refine ⟨?_, ?_, ?_⟩
      · show (0 : Int) ≤ s.wallet + w
        omega
      · show (0 : Int) ≤ s.bank - w
        omega
      · show s.bank - w ≤ s.bankCapacity
        omega

/-- Every safe valid operation with a nonnegative daily amount preserves
the invariant. -/
theorem applyOp_preserves (s : Account) (op : Op)
    (hv : validOp op = true) (hs : safeOp op = true)
    (hn : nonNegDaily op = true)
    (h : ClaimedInv s) : ClaimedInv (applyOp s op) := by
  obtain ⟨h1, h2, h3⟩ := h
  cases op with
  | create => exact ⟨h1, h2, h3⟩
  | balanceQuery => exact ⟨h1, h2, h3⟩
  | addMoney a =>
      have ha : (0 : Int) ≤ a := by simpa [validOp] using hv
      exact ⟨show (0 : Int) ≤ s.wallet + a by omega, h2, h3⟩
  | removeMoney a =>
      have ha : (0 : Int) ≤ a := by simpa [validOp] using hv
      exact ⟨show (0 : Int) ≤ s.wallet - min a s.wallet by omega, h2, h3⟩
  | deposit amt =>
      cases amt with
      | all => exact depositClamp_inv s s.wallet (le_refl _) ⟨h1, h2, h3⟩
      | exact n =>
          exact depositClamp_inv s (min n s.wallet) (min_le_right _ _) ⟨h1, h2, h3⟩
  | withdraw amt =>
      cases amt with
      | all => exact withdrawClamp_inv s s.bank (le_refl _) ⟨h1, h2, h3⟩
      | exact n =>
          exact withdrawClamp_inv s (min n s.bank) (min_le_right _ _) ⟨h1, h2, h3⟩
  | transferOut a =>
      simp only [applyOp]
      split
      · exact ⟨h1, h2, h3⟩
      · next hlt =>
          exact ⟨show (0 : Int) ≤ s.wallet - a by omega, h2, h3⟩
  | transferIn a =>
      have ha : (0 : Int) ≤ a := by simpa [validOp] using hv
      exact ⟨show (0 : Int) ≤ s.wallet + a by omega, h2, h3⟩
  | dailyClaim a now =>
      have ha : (0 : Int) ≤ a := by simpa [nonNegDaily] using hn
      simp only [applyOp]
      split
      · exact ⟨h1, h2, h3⟩
      · exact ⟨show (0 : Int) ≤ s.wallet + a by omega, h2, h3⟩
  | addBankCapacity a =>
      have ha : (0 : Int) ≤ a := by simpa [validOp] using hv
      exact ⟨h1, h2, show s.bank ≤ s.bankCapacity + a by omega⟩
  | setMoney w b => simp [safeOp] at hs
  | setBankCapacity c => simp [safeOp] at hs
  | deleteAccount =>
      exact ⟨le_refl 0, le_refl 0, show (0 : Int) ≤ 2500 by norm_num⟩

/-- A fold of safe valid operations with nonnegative daily amounts
preserves the invariant. -/
theorem applyOps_preserves (s : Account) (ops : List Op) :
    (∀ op ∈ ops, validOp op = true ∧ safeOp op = true ∧ nonNegDaily op = true) →
    ClaimedInv s → ClaimedInv (applyOps s ops) := by
  rw [applyOps]
  induction ops generalizing s with
  | nil => exact fun _ hs => hs
  | cons op rest ih =>
      intro h hs
      rw [List.foldl_cons]
      have hop := h op (List.mem_cons_self op rest)
      exact ih _ (fun o ho => h o (List.mem_cons_of_mem op ho))
        (applyOp_preserves _ op hop.1 hop.2.1 hop.2.2 hs)

/-- C1 amended: starting from a freshly created account, any finite
sequence of validated operations drawn from balance, credit, debit,
deposit, withdraw, the two transfer halves, daily claim, bank-capacity
increase, create and delete keeps wallet >= 0 and 0 <= bank <=
bankCapacity, under two restrictions the counterexample forces: the
direct overwrites setMoney and setBankCapacity are excluded (setMoney can
store bank above the capacity), and every daily-claim amount is
nonnegative — an assumption the flaredb variants do NOT validate, so it
is stated separately from validOp rather than folded into it. -/
theorem c1_invariant (userID platform : String) (ops : List Op)
    (h : ∀ op ∈ ops, validOp op = true ∧ safeOp op = true ∧ nonNegDaily op = true) :
    ClaimedInv (applyOps (freshAccount userID platform) ops) :=
  applyOps_preserves (freshAccount userID platform) ops h
    ⟨le_refl 0, le_refl 0, show (0 : Int) ≤ 2500 by norm_num⟩

/-- C1 witness: a concrete mixed sequence of safe valid operations ending
within the invariant. -/
theorem c1_witness :
    (∀ op ∈ [Op.create, Op.addMoney 100, Op.deposit (AmountArg.exact 60),
        Op.dailyClaim 50 1700000000000, Op.withdraw AmountArg.all,
        Op.transferOut 20, Op.transferIn 5, Op.addBankCapacity 500,
        Op.removeMoney 1000, Op.deleteAccount],
      validOp op = true ∧ safeOp op = true ∧ nonNegDaily op = true) ∧
    ClaimedInv (applyOps (freshAccount "w" "discord")
      [Op.create, Op.addMoney 100, Op.deposit (AmountArg.exact 60),
        Op.dailyClaim 50 1700000000000, Op.withdraw AmountArg.all,
        Op.transferOut 20, Op.transferIn 5, Op.addBankCapacity 500,
        Op.removeMoney 1000, Op.deleteAccount]) := by
  refine ⟨by decide, ?_⟩
  exact c1_invariant "w" "discord" _ (by decide)

/-- Stable descending insertion used to embed the JavaScript sort with
comparator (b - a): an element moves ahead only of strictly smaller
values, so equal values keep their original relative order. -/
def insertDescBy {α : Type} (val : α → Int) (a : α) : List α → List α
  | [] => [a]
  | b :: rest =>
      if val b < val a then a :: b :: rest else b :: insertDescBy val a rest

/-- Stable descending sort by an integer key. -/
def sortDescBy {α : Type} (val : α → Int) : List α → List α
  | [] => []
  | a :: rest => insertDescBy val a (sortDescBy val rest)

/-- JavaScript slice(0, n): a nonnegative end index takes that many
elements, a negative end index counts from the end of the array. -/
def sliceTo {α : Type} (l : List α) (n : Int) : List α :=
  if 0 ≤ n then l.take n.toNat else l.take (l.length - (-n).toNat)

/-- The sort key of the leaderboard comparator in src/unnamed/part_003:
total means wallet + bank, otherwise the named field is read. -/
def lbValue (sortType : String) (u : Account) : Int :=
  if sortType = "total" then u.wallet + u.bank
  else if sortType = "wallet" then u.wallet
  else u.bank

/-- leaderboard from src/unnamed/part_003: requires a platform and a
recognized sort type (the limit is only checked for being numeric, which
the Int embedding makes implicit), scans the platform, sorts descending by
the chosen key and slices to the limit. -/
def leaderboard3 (users : List Account) (platform : String) (limit : Int)
    (sortType : String) : Except String (List Account) :=
  if platform = "" then Except.error "Please Provide a Platform"
  else if ¬ (sortType = "wallet" ∨ sortType = "bank" ∨ sortType = "total") then
    Except.error "Type must be wallet, bank, or total"
  else
    let allUsers := users.filter (fun u => u.platform == platform)
    Except.ok (sliceTo (sortDescBy (lbValue sortType) allUsers) limit)

/-- The sort key of the leaderboard comparator in src/unnamed/part_002
over records decorated with their total: wallet and bank read the field,
any other sortBy value falls through to the decorated total. -/
def lbValue2 (sortBy : String) (x : Account × Int) : Int :=
  if sortBy = "wallet" then x.1.wallet
  else if sortBy = "bank" then x.1.bank
  else x.2

/-- leaderboard from src/unnamed/part_002: rejects a count below 1 (and a
non-numeric count, implicit in the Int embedding), optionally filters to a
platform (the source tests that the key starts with the platform name and
a colon, which the key layout makes an equality test on platform), decorates
each record with total = wallet + bank, sorts descending and slices. -/
def leaderboard2 (users : List Account) (count : Int)
    (platform : Option String) (sortBy : String) :
    Except String (List (Account × Int)) :=
  if count < 1 then Except.error "Count must be at least 1"
  else
    let allUsers : List Account :=
      match platform with
      | some p => users.filter (fun u => u.platform == p)
      | none => users
    let decorated := allUsers.map (fun u => (u, u.wallet + u.bank))
    Except.ok (sliceTo (sortDescBy (lbValue2 sortBy) decorated) count)

/-- Whether an Except value is a success. -/
def exceptOk {ε α : Type} : Except ε α → Bool
  | .ok _ => true
  | .error _ => false

/-- C8 counterexample: the claim is false.  leaderboard of part_003 called
with limit 0 (not at least 1) and a recognized sort key raises nothing and
answers normally, and leaderboard of part_002 called with the unrecognized
sort key networth raises nothing and answers normally. -/
theorem c8_counterexample :
    leaderboard3 [] "discord" 0 "total" = Except.ok [] ∧
    leaderboard2 [] 5 none "networth" = Except.ok [] := by
  constructor <;> rfl

/-- C8 amended: each variant validates only part of the claimed
conditions.  The flaredb variant (part_003/part_007) raises a validation
error on an unrecognized sort key, for every store alike and hence before
reading any account data, but accepts every integer limit including values
below 1; the JSON-file variant (part_002) raises on a count below 1, again
independently of the store, but accepts any sort key, treating an
unrecognized one as total. -/
theorem c8_leaderboard_validation (users : List Account) (platform : String)
    (limit count : Int) (sortType sortBy : String) (pf : Option String)
    (hp : platform ≠ "") :
    (¬ (sortType = "wallet" ∨ sortType = "bank" ∨ sortType = "total") →
      leaderboard3 users platform limit sortType =
        Except.error "Type must be wallet, bank, or total") ∧
    ((sortType = "wallet" ∨ sortType = "bank" ∨ sortType = "total") →
      exceptOk (leaderboard3 users platform limit sortType) = true) ∧
    (count < 1 →
      leaderboard2 users count pf sortBy =
        Except.error "Count must be at least 1") ∧
    (1 ≤ count → exceptOk (leaderboard2 users count pf sortBy) = true) := by
  refine ⟨?_, ?_, ?_, ?_⟩
  · intro ht
    simp [leaderboard3, hp, ht]
  · intro ht
    simp [leaderboard3, hp, ht, exceptOk]
  · intro hc
    simp [leaderboard2, hc]
  · intro hc
    simp [leaderboard2, not_lt.mpr hc, exceptOk]

/-- C8 witness: the validation that does exist, at concrete inputs. -/
theorem c8_witness :
    "discord" ≠ "" ∧ ¬ ("networth" = "wallet" ∨ "networth" = "bank" ∨
      "networth" = "total") ∧ (0 : Int) < 1 ∧
    leaderboard3 [] "discord" 2 "networth" =
      Except.error "Type must be wallet, bank, or total" ∧
    leaderboard2 [] 0 none "total" =
      Except.error "Count must be at least 1" := by
  refine ⟨by decide, by decide, by decide, ?_, ?_⟩
  · exact (c8_leaderboard_validation [] "discord" 2 0 "networth" "total" none
      (by decide)).1 (by decide)
  · exact (c8_leaderboard_validation [] "discord" 2 0 "networth" "total" none
      (by decide)).2.2.1 (by decide)

end FlareEconomy
